import Mathlib

/-!
Shallow embedding of the Signal Generation & Risk-Managed Position
Lifecycle Engine of the repository (src/analysis/technical_analyzer.py,
src/trading/position_manager.py, src/trading/trader.py, src/config.py).

Prices, indicator values and P&L amounts are modelled as rationals (ℚ),
share quantities as integers, calendar dates as natural-number day
ordinals, and the Python dict of open positions as an association list
keyed by symbol.  External collaborators (talib indicator kernels, the
database record sink, the brokerage automation) are outside the model;
their outputs enter as explicit parameters.
-/

namespace TradingBot

/-! ## Configuration constants (src/config.py, class Settings) -/

/-- `Settings.MAX_DAILY_LOSS_PERCENT = 1.0` (src/config.py). -/
def MAX_DAILY_LOSS_PERCENT : ℚ := 1

/-- `Settings.MAX_POSITION_SIZE_PERCENT = 5.0` (src/config.py). -/
def MAX_POSITION_SIZE_PERCENT : ℚ := 5

/-- `Trader.risk_per_trade = 0.02` (src/trading/trader.py line 18). -/
def risk_per_trade : ℚ := 2 / 100

/-- `Trader.trailing_sl_percent = 0.02` (src/trading/trader.py line 19). -/
def trailing_sl_percent : ℚ := 2 / 100

/-! ## Signal scorer (src/analysis/technical_analyzer.py, generate_signal)

`generate_signal` reads only the latest indicator row of the data frame
(`data.iloc[-1]`) plus the close of the second-to-last bar
(`data['Close'].iloc[-2]`).  We embed the latest row as a structure of
exactly the columns the function reads, and pass the prior close
explicitly. -/

/-- The columns of the latest indicator row that `generate_signal` reads. -/
structure IndicatorRow where
  EMA_9 : ℚ
  SMA_20 : ℚ
  SMA_50 : ℚ
  RSI : ℚ
  MACD : ℚ
  MACD_Signal : ℚ
  Close : ℚ
  BB_Middle : ℚ
  Volume : ℚ
  Volume_SMA : ℚ
deriving Repr, DecidableEq

/-- The dict returned by `generate_signal`. -/
structure Signal where
  direction : ℤ
  strength : ℚ
  buy_signals : ℕ
  sell_signals : ℕ
deriving Repr, DecidableEq

/-- One Python `if cond: buy_signals += 1 else: sell_signals += 1` step. -/
def vote (c : Prop) [Decidable c] (bs ss : ℕ) : ℕ × ℕ :=
  if c then (bs + 1, ss) else (bs, ss + 1)

/-- Embedding of `TechnicalAnalyzer.generate_signal`
(src/analysis/technical_analyzer.py lines 57-115).  Each `vote` mirrors one
if/else counter update of the Python; the volume category updates no
counter when `Volume > Volume_SMA` fails, exactly as in the source. -/
def generate_signal (last_row : IndicatorRow) (prev_close : ℚ) : Signal :=
  -- Trend signals
  let p1 := vote (last_row.EMA_9 > last_row.SMA_20) 0 0
  let p2 := vote (last_row.SMA_20 > last_row.SMA_50) p1.1 p1.2
  -- Momentum signals
  let p3 :=
    if 30 ≤ last_row.RSI ∧ last_row.RSI ≤ 70 then
      vote (last_row.RSI > 50) p2.1 p2.2
    else
      vote (last_row.RSI < 30) p2.1 p2.2
  -- MACD signals
  let p4 := vote (last_row.MACD > last_row.MACD_Signal) p3.1 p3.2
  -- Volatility signals
  let p5 := vote (last_row.Close > last_row.BB_Middle) p4.1 p4.2
  -- Volume signals (no vote when volume is not above its 20-bar average)
  let p6 :=
    if last_row.Volume > last_row.Volume_SMA then
      vote (last_row.Close > prev_close) p5.1 p5.2
    else p5
  let total_signals : ℕ := 7
  let strength : ℚ := (max p6.1 p6.2 : ℕ) / (total_signals : ℚ)
  { direction :=
      if p6.1 > p6.2 then 1 else if p6.2 > p6.1 then -1 else 0
    strength := strength
    buy_signals := p6.1
    sell_signals := p6.2 }

/-- The §8 scenario row: EMA9>SMA20, SMA20>SMA50, RSI=55, MACD>signal,
close>BB-middle, volume below its 20-bar average. -/
def scenarioRow : IndicatorRow :=
  { EMA_9 := 11, SMA_20 := 10, SMA_50 := 9, RSI := 55, MACD := 2,
    MACD_Signal := 1, Close := 105, BB_Middle := 100, Volume := 50,
    Volume_SMA := 60 }

lemma vote_fst (c : Prop) [Decidable c] (bs ss : ℕ) :
    (vote c bs ss).1 = bs + (if c then 1 else 0) := by
  unfold vote; split_ifs <;> simp

lemma vote_snd (c : Prop) [Decidable c] (bs ss : ℕ) :
    (vote c bs ss).2 = ss + (if c then 0 else 1) := by
  unfold vote; split_ifs <;> simp

lemma ite_add_add (a : Prop) [Decidable a] (x u v : ℕ) :
    (if a then x + u else x + v) = x + if a then u else v := by
  split_ifs <;> rfl

lemma ite_add_self (a : Prop) [Decidable a] (x u : ℕ) :
    (if a then x + u else x) = x + if a then u else 0 := by
  split_ifs <;> simp

lemma ite_ite_and (a b : Prop) [Decidable a] [Decidable b] :
    (if a then (if b then (1 : ℕ) else 0) else 0) =
      if a ∧ b then 1 else 0 := by
  split_ifs <;> first | rfl | tauto

lemma ite_ite_and_not (a b : Prop) [Decidable a] [Decidable b] :
    (if a then (if b then (0 : ℕ) else 1) else 0) =
      if a ∧ ¬ b then 1 else 0 := by
  split_ifs <;> first | rfl | tauto

/-- The buy branch of the three-way RSI chain, merged into one condition. -/
lemma momentum_buy_ite (x : ℚ) :
    (if 30 ≤ x ∧ x ≤ 70 then (if x > 50 then (1 : ℕ) else 0)
     else (if x < 30 then 1 else 0)) =
      if (30 ≤ x ∧ x ≤ 70 ∧ x > 50) ∨ x < 30 then 1 else 0 := by
  by_cases h1 : 30 ≤ x
  · by_cases h2 : x ≤ 70
    · have h3 : ¬ x < 30 := by linarith
      by_cases h4 : x > 50 <;> simp [h1, h2, h3, h4]
    · have h3 : ¬ x < 30 := by linarith
      simp [h1, h2, h3]
  · have h2 : x < 30 := by linarith
    have h3 : ¬ (30 ≤ x ∧ x ≤ 70) := fun hh => h1 hh.1
    simp [h2, h3]

/-- The sell branch of the three-way RSI chain, merged into one condition. -/
lemma momentum_sell_ite (x : ℚ) :
    (if 30 ≤ x ∧ x ≤ 70 then (if x > 50 then (0 : ℕ) else 1)
     else (if x < 30 then 0 else 1)) =
      if (30 ≤ x ∧ x ≤ 70 ∧ x ≤ 50) ∨ 70 < x then 1 else 0 := by
  by_cases h1 : 30 ≤ x
  · by_cases h2 : x ≤ 70
    · have h3 : ¬ 70 < x := by linarith
      by_cases h4 : x > 50
      · have h5 : ¬ x ≤ 50 := by linarith
        simp [h1, h2, h3, h4, h5]
      · have h5 : x ≤ 50 := by linarith
        simp [h1, h2, h3, h4, h5]
    · have h3 : ¬ x < 30 := by linarith
      have h4 : 70 < x := by linarith
      simp [h1, h2, h3, h4]
  · have h2 : x < 30 := by linarith
    have h3 : ¬ (30 ≤ x ∧ x ≤ 70) := fun hh => h1 hh.1
    have h4 : ¬ 70 < x := by linarith
    simp [h1, h2, h3, h4]

/-- Buy-vote count of `generate_signal`: one vote per category condition. -/
lemma generate_signal_buy_count (r : IndicatorRow) (pc : ℚ) :
    (generate_signal r pc).buy_signals =
      (if r.EMA_9 > r.SMA_20 then 1 else 0) +
      (if r.SMA_20 > r.SMA_50 then 1 else 0) +
      (if (30 ≤ r.RSI ∧ r.RSI ≤ 70 ∧ r.RSI > 50) ∨ r.RSI < 30 then 1 else 0) +
      (if r.MACD > r.MACD_Signal then 1 else 0) +
      (if r.Close > r.BB_Middle then 1 else 0) +
      (if r.Volume > r.Volume_SMA ∧ r.Close > pc then 1 else 0) := by
  simp only [generate_signal, vote_fst, vote_snd, apply_ite Prod.fst,
    apply_ite Prod.snd, ite_add_add, ite_add_self, momentum_buy_ite,
    ite_ite_and, Nat.zero_add]

/-- Sell-vote count of `generate_signal`: the complementary conditions. -/
lemma generate_signal_sell_count (r : IndicatorRow) (pc : ℚ) :
    (generate_signal r pc).sell_signals =
      (if ¬ (r.EMA_9 > r.SMA_20) then 1 else 0) +
      (if ¬ (r.SMA_20 > r.SMA_50) then 1 else 0) +
      (if (30 ≤ r.RSI ∧ r.RSI ≤ 70 ∧ r.RSI ≤ 50) ∨ 70 < r.RSI then 1 else 0) +
      (if ¬ (r.MACD > r.MACD_Signal) then 1 else 0) +
      (if ¬ (r.Close > r.BB_Middle) then 1 else 0) +
      (if r.Volume > r.Volume_SMA ∧ ¬ (r.Close > pc) then 1 else 0) := by
  simp only [generate_signal, vote_fst, vote_snd, apply_ite Prod.fst,
    apply_ite Prod.snd, ite_add_add, ite_add_self, momentum_sell_ite,
    ite_ite_and_not, Nat.zero_add, ite_not]

/-- 5 or 6 votes are cast, depending on the conditional volume vote. -/
lemma generate_signal_total (r : IndicatorRow) (pc : ℚ) :
    (generate_signal r pc).buy_signals + (generate_signal r pc).sell_signals =
      if r.Volume > r.Volume_SMA then 6 else 5 := by
  simp only [generate_signal, vote_fst, vote_snd, apply_ite Prod.fst,
    apply_ite Prod.snd, ite_add_add, ite_add_self]
  split_ifs <;> norm_num

lemma generate_signal_direction_eq (r : IndicatorRow) (pc : ℚ) :
    (generate_signal r pc).direction =
      if (generate_signal r pc).buy_signals > (generate_signal r pc).sell_signals
      then 1
      else if (generate_signal r pc).sell_signals > (generate_signal r pc).buy_signals
      then -1 else 0 := rfl

lemma generate_signal_strength_eq (r : IndicatorRow) (pc : ℚ) :
    (generate_signal r pc).strength =
      ((max (generate_signal r pc).buy_signals
            (generate_signal r pc).sell_signals : ℕ) : ℚ) / 7 := rfl

/-- C1: `generate_signal` implements the 6-category unweighted vote
(Trend-1 EMA9>SMA20, Trend-2 SMA20>SMA50, momentum on RSI with the
oversold/overbought branches, MACD line vs signal line, close vs
Bollinger middle band, and a conditional volume vote cast only when
volume exceeds its 20-bar average, buying iff close rose vs the prior
close); direction is +1, -1 or 0 by vote majority and strength is
max(buy_votes, sell_votes)/7.  The §8 scenario yields 5 buy votes,
direction +1, strength 5/7. -/
theorem generate_signal_vote_spec (r : IndicatorRow) (pc : ℚ) :
    (generate_signal r pc).buy_signals =
      (if r.EMA_9 > r.SMA_20 then 1 else 0) +
      (if r.SMA_20 > r.SMA_50 then 1 else 0) +
      (if (30 ≤ r.RSI ∧ r.RSI ≤ 70 ∧ r.RSI > 50) ∨ r.RSI < 30 then 1 else 0) +
      (if r.MACD > r.MACD_Signal then 1 else 0) +
      (if r.Close > r.BB_Middle then 1 else 0) +
      (if r.Volume > r.Volume_SMA ∧ r.Close > pc then 1 else 0) ∧
    (generate_signal r pc).sell_signals =
      (if ¬ (r.EMA_9 > r.SMA_20) then 1 else 0) +
      (if ¬ (r.SMA_20 > r.SMA_50) then 1 else 0) +
      (if (30 ≤ r.RSI ∧ r.RSI ≤ 70 ∧ r.RSI ≤ 50) ∨ 70 < r.RSI then 1 else 0) +
      (if ¬ (r.MACD > r.MACD_Signal) then 1 else 0) +
      (if ¬ (r.Close > r.BB_Middle) then 1 else 0) +
      (if r.Volume > r.Volume_SMA ∧ ¬ (r.Close > pc) then 1 else 0) ∧
    (generate_signal r pc).buy_signals + (generate_signal r pc).sell_signals =
      (if r.Volume > r.Volume_SMA then 6 else 5) ∧
    (generate_signal r pc).direction =
      (if (generate_signal r pc).buy_signals > (generate_signal r pc).sell_signals
       then 1
       else if (generate_signal r pc).sell_signals > (generate_signal r pc).buy_signals
       then -1 else 0) ∧
    (generate_signal r pc).strength =
      ((max (generate_signal r pc).buy_signals
            (generate_signal r pc).sell_signals : ℕ) : ℚ) / 7 ∧
    generate_signal scenarioRow 100 =
      { direction := 1, strength := 5 / 7, buy_signals := 5, sell_signals := 0 } := by
  refine ⟨generate_signal_buy_count r pc, generate_signal_sell_count r pc,
    generate_signal_total r pc, generate_signal_direction_eq r pc,
    generate_signal_strength_eq r pc, ?_⟩
  norm_num [generate_signal, vote, scenarioRow, Signal.mk.injEq]

/-- A row on which the vote ties 3-3 (volume vote cast). -/
def tieRow : IndicatorRow :=
  { EMA_9 := 11, SMA_20 := 10, SMA_50 := 9, RSI := 55, MACD := 1,
    MACD_Signal := 2, Close := 95, BB_Middle := 100, Volume := 70,
    Volume_SMA := 60 }

/-- C10: at least 5 votes are always cast, so the reported strength is at
least 3/7; in particular an exact tie (direction = 0) reports strength
exactly 3/7, not 0. -/
theorem generate_signal_strength_floor (r : IndicatorRow) (pc : ℚ) :
    3 / 7 ≤ (generate_signal r pc).strength ∧
    ((generate_signal r pc).direction = 0 →
      (generate_signal r pc).strength = 3 / 7) := by
  have htot := generate_signal_total r pc
  have hsum : 5 ≤ (generate_signal r pc).buy_signals +
      (generate_signal r pc).sell_signals := by
    by_cases hv : r.Volume > r.Volume_SMA <;> simp [hv] at htot <;> omega
  have hmax : 3 ≤ max (generate_signal r pc).buy_signals
      (generate_signal r pc).sell_signals := by
    have := Nat.le_max_left (generate_signal r pc).buy_signals
      (generate_signal r pc).sell_signals
    have := Nat.le_max_right (generate_signal r pc).buy_signals
      (generate_signal r pc).sell_signals
    omega
  constructor
  · rw [generate_signal_strength_eq]
    have h3 : (3 : ℚ) ≤ ((max (generate_signal r pc).buy_signals
        (generate_signal r pc).sell_signals : ℕ) : ℚ) := by
      exact_mod_cast hmax
    linarith
  · intro hdir
    rw [generate_signal_direction_eq] at hdir
    have hne1 : (1 : ℤ) ≠ 0 := by norm_num
    split_ifs at hdir with h1 h2
    · exact absurd hdir hne1
    have heq : (generate_signal r pc).buy_signals =
        (generate_signal r pc).sell_signals := by omega
    have h6 : (generate_signal r pc).buy_signals +
        (generate_signal r pc).sell_signals = 6 := by
      by_cases hv : r.Volume > r.Volume_SMA <;> simp [hv] at htot <;> omega
    have hm3 : max (generate_signal r pc).buy_signals
        (generate_signal r pc).sell_signals = 3 := by omega
    rw [generate_signal_strength_eq, hm3]
    norm_num

/-- C10 witness: a concrete 3-3 tie where direction is 0 and the strength
is exactly 3/7 (which also meets the 3/7 lower bound). -/
theorem generate_signal_strength_floor_witness :
    3 / 7 ≤ (generate_signal tieRow 100).strength ∧
    (generate_signal tieRow 100).strength = 3 / 7 :=
  ⟨(generate_signal_strength_floor tieRow 100).1,
   (generate_signal_strength_floor tieRow 100).2
     (by norm_num [generate_signal, vote, tieRow])⟩

end TradingBot

namespace TradingBot

/-! ## Position ledger (src/trading/position_manager.py, class PositionManager)

The Python dict `self.positions` is modelled as an association list in
insertion order; dict assignment, membership, lookup and `del` are
`dictInsert`, `dictLookup` and `dictRemove`.  `datetime.now().date()` is
passed in as a day ordinal `today`; `datetime.now()` timestamps are passed
as `now`.  `db_manager.record_trade` is the external record sink and is
outside the model. -/

/-- A value of the `self.positions` dict: the keys `entry_price`,
`quantity`, `entry_time` are always present; the remaining keys are only
present once written (trailing stops by the trader, marks by
`update_position_values`). -/
structure Position where
  entry_price : ℚ
  quantity : ℤ
  entry_time : ℕ
  stop_loss : Option ℚ := none
  target : Option ℚ := none
  current_price : Option ℚ := none
  unrealized_pnl : Option ℚ := none
deriving Repr, DecidableEq

/-- Python dict lookup `m[k]` / membership `k in m`. -/
def dictLookup {α : Type} (k : String) : List (String × α) → Option α
  | [] => none
  | (k', v) :: rest => if k' == k then some v else dictLookup k rest

/-- Python dict assignment `m[k] = v`: replaces in place if the key is
present, otherwise appends. -/
def dictInsert {α : Type} (k : String) (v : α)
    (m : List (String × α)) : List (String × α) :=
  if m.any (fun p => p.1 == k) then
    m.map (fun p => if p.1 == k then (k, v) else p)
  else m ++ [(k, v)]

/-- Python `del m[k]`. -/
def dictRemove {α : Type} (k : String)
    (m : List (String × α)) : List (String × α) :=
  m.filter (fun p => !(p.1 == k))

/-- The mutable state of a `PositionManager` instance
(src/trading/position_manager.py lines 10-13). -/
structure PositionManager where
  positions : List (String × Position) := []
  daily_pnl : ℚ := 0
  last_reset : ℕ
deriving Repr, DecidableEq

/-- `PositionManager.reset_daily_metrics`
(src/trading/position_manager.py lines 15-20). -/
def reset_daily_metrics (today : ℕ) (pm : PositionManager) :
    PositionManager :=
  if today > pm.last_reset then
    { pm with daily_pnl := 0, last_reset := today }
  else pm

/-- `PositionManager.can_trade`
(src/trading/position_manager.py lines 22-26): runs the daily reset,
then compares `daily_pnl` against `-(portfolio_value *
MAX_DAILY_LOSS_PERCENT / 100)`.  Returns the mutated state together with
the verdict. -/
def can_trade (today : ℕ) (portfolio_value : ℚ) (pm : PositionManager) :
    PositionManager × Bool :=
  let pm' := reset_daily_metrics today pm
  let max_daily_loss := portfolio_value * (MAX_DAILY_LOSS_PERCENT / 100)
  (pm', decide (pm'.daily_pnl > -max_daily_loss))

/-- `PositionManager.add_position`
(src/trading/position_manager.py lines 33-48): unconditionally assigns
`self.positions[symbol]`; the `db_manager.record_trade` call goes to the
external sink. -/
def add_position (symbol : String) (entry_price : ℚ) (quantity : ℤ)
    (now : ℕ) (pm : PositionManager) : PositionManager :=
  { pm with positions :=
      (dictInsert symbol
        ({ entry_price := entry_price, quantity := quantity,
           entry_time := now }) pm.positions) }

/-- `PositionManager.close_position`
(src/trading/position_manager.py lines 50-71): if the symbol is held,
realizes `(exit_price - entry_price) * quantity` into `daily_pnl`,
deletes the position and returns the P&L; otherwise returns 0 leaving
the state untouched. -/
def close_position (symbol : String) (exit_price : ℚ)
    (pm : PositionManager) : PositionManager × ℚ :=
  match dictLookup symbol pm.positions with
  | some position =>
      let pnl := (exit_price - position.entry_price) * (position.quantity : ℚ)
      ({ pm with
          daily_pnl := pm.daily_pnl + pnl,
          positions := dictRemove symbol pm.positions }, pnl)
  | none => (pm, 0)

/-- `PositionManager.update_position_values`
(src/trading/position_manager.py lines 77-88): iterates the positions in
order; for a symbol present in `current_prices` it writes
`current_price` and `unrealized_pnl` and adds the latter to the running
total; other positions are skipped. -/
def update_position_values (current_prices : List (String × ℚ))
    (pm : PositionManager) : PositionManager × ℚ :=
  let res := pm.positions.foldl
    (fun acc entry =>
      match dictLookup entry.1 current_prices with
      | some current_price =>
          let upnl := (current_price - entry.2.entry_price) *
            (entry.2.quantity : ℚ)
          (acc.1 ++ [(entry.1,
            { entry.2 with
                current_price := some current_price,
                unrealized_pnl := some upnl })], acc.2 + upnl)
      | none => (acc.1 ++ [entry], acc.2))
    ([], 0)
  ({ pm with positions := res.1 }, res.2)

/-- Modelled from the spec: `PositionManager.get_total_exposure` is
called by `Trader._check_risk_limits` (src/trading/trader.py line 123)
but its definition is missing from src/.  Spec §4.3: "totalExposure() ->
value: sum of entry_price * quantity across open positions." -/
def get_total_exposure (pm : PositionManager) : ℚ :=
  (pm.positions.map (fun p => p.2.entry_price * (p.2.quantity : ℚ))).sum

/-- Modelled from the spec: `PositionManager.update_stop_loss` is called
by `Trader.update_trailing_stops` (src/trading/trader.py line 147) but
its definition is missing from src/.  Spec §4.3: sets the position's
stop to the new value without re-validating direction. -/
def update_stop_loss (symbol : String) (new_stop : ℚ)
    (pm : PositionManager) : PositionManager :=
  { pm with positions :=
      (pm.positions.map (fun p =>
        if p.1 == symbol
        then (p.1, { p.2 with stop_loss := some new_stop }) else p)) }

end TradingBot

namespace TradingBot

/-- C3: `can_trade` first applies the daily rollover reset, then returns
true iff `daily_pnl > -(portfolio_value * MAX_DAILY_LOSS_PERCENT / 100)`;
with portfolio 100000 the spec scenario gives true at -999, false at
-1001, and false at exactly -1000. -/
theorem can_trade_spec (today : ℕ) (pv : ℚ) (pm : PositionManager) :
    (can_trade today pv pm).1 = reset_daily_metrics today pm ∧
    ((can_trade today pv pm).2 = true ↔
      (reset_daily_metrics today pm).daily_pnl >
        -(pv * (MAX_DAILY_LOSS_PERCENT / 100))) ∧
    (pm.last_reset < today →
      (can_trade today pv pm).1.daily_pnl = 0 ∧
      (can_trade today pv pm).1.last_reset = today) ∧
    (can_trade 3 100000
      { positions := [], daily_pnl := -999, last_reset := 3 }).2 = true ∧
    (can_trade 3 100000
      { positions := [], daily_pnl := -1001, last_reset := 3 }).2 = false ∧
    (can_trade 3 100000
      { positions := [], daily_pnl := -1000, last_reset := 3 }).2 = false := by
  refine ⟨rfl, by simp [can_trade], ?_, ?_, ?_, ?_⟩
  · intro h
    simp [can_trade, reset_daily_metrics, h]
  · norm_num [can_trade, reset_daily_metrics, MAX_DAILY_LOSS_PERCENT]
  · norm_num [can_trade, reset_daily_metrics, MAX_DAILY_LOSS_PERCENT]
  · norm_num [can_trade, reset_daily_metrics, MAX_DAILY_LOSS_PERCENT]

/-- C3 witness: a concrete date rollover (last reset day 3, today day 5)
zeroes the daily P&L, and the -999 scenario verdict is reproduced via
the equivalence. -/
theorem can_trade_spec_witness :
    (3 : ℕ) < 5 ∧
    (can_trade 5 100000
      { positions := [], daily_pnl := -42, last_reset := 3 }).1.daily_pnl = 0 ∧
    (can_trade 3 100000
      { positions := [], daily_pnl := -999, last_reset := 3 }).2 = true :=
  ⟨by norm_num,
   ((can_trade_spec 5 100000
      { positions := [], daily_pnl := -42, last_reset := 3 }).2.2.1
      (by norm_num)).1,
   ((can_trade_spec 3 100000
      { positions := [], daily_pnl := -999, last_reset := 3 }).2.2.2.1)⟩

lemma dictLookup_dictRemove_self {α : Type} (k : String)
    (m : List (String × α)) :
    dictLookup k (dictRemove k m) = none := by
  induction m with
  | nil => rfl
  | cons p rest ih =>
    rw [dictRemove, List.filter_cons]
    by_cases h : p.1 == k
    · simp only [h]
      simpa [dictRemove] using ih
    · simp only [h, Bool.not_false, if_true, Bool.not_eq_true']
      rw [dictLookup]
      simp only [h, if_false, Bool.false_eq_true]
      simpa [dictRemove] using ih

lemma dictLookup_dictRemove_other {α : Type} (k other : String)
    (m : List (String × α)) (h : other ≠ k) :
    dictLookup other (dictRemove k m) = dictLookup other m := by
  induction m with
  | nil => rfl
  | cons p rest ih =>
    rw [dictRemove, List.filter_cons]
    by_cases hp : p.1 == k
    · have hpo : (p.1 == other) = false := by
        rw [beq_eq_false_iff_ne, eq_of_beq hp]
        exact fun hh => h hh.symm
      simp only [hp, Bool.not_true, if_false, Bool.false_eq_true]
      rw [show dictLookup other (p :: rest) =
            if p.1 == other then some p.2 else dictLookup other rest from rfl]
      simp only [hpo, if_false, Bool.false_eq_true]
      simpa [dictRemove] using ih
    · simp only [hp, Bool.not_false, if_true, Bool.not_eq_true']
      rw [show dictLookup other
            (p :: List.filter (fun q => !(q.1 == k)) rest) =
            if p.1 == other then some p.2
            else dictLookup other (List.filter (fun q => !(q.1 == k)) rest)
          from rfl,
        show dictLookup other (p :: rest) =
            if p.1 == other then some p.2 else dictLookup other rest from rfl]
      by_cases hq : p.1 == other
      · simp [hq]
      · simp only [hq, if_false, Bool.false_eq_true]
        simpa [dictRemove] using ih

end TradingBot

namespace TradingBot

/-- C6: closing a held symbol returns `(exit - entry) * quantity`, adds
exactly that amount to `daily_pnl` and removes the position (other
symbols untouched); closing an unheld symbol is a no-op returning 0.
The §8 scenario (open AAA at 100 x 10, close at 110) realizes 100. -/
theorem close_position_spec (pm : PositionManager) (sym : String)
    (exit_price : ℚ) :
    (∀ pos, dictLookup sym pm.positions = some pos →
      (close_position sym exit_price pm).2 =
        (exit_price - pos.entry_price) * (pos.quantity : ℚ) ∧
      (close_position sym exit_price pm).1.daily_pnl =
        pm.daily_pnl + (exit_price - pos.entry_price) * (pos.quantity : ℚ) ∧
      dictLookup sym (close_position sym exit_price pm).1.positions = none ∧
      (∀ other, other ≠ sym →
        dictLookup other (close_position sym exit_price pm).1.positions =
          dictLookup other pm.positions)) ∧
    (dictLookup sym pm.positions = none →
      close_position sym exit_price pm = (pm, 0)) ∧
    (close_position "AAA" 110
      (add_position "AAA" 100 10 0
        { positions := [], daily_pnl := 0, last_reset := 0 })).2 = 100 ∧
    (close_position "AAA" 110
      (add_position "AAA" 100 10 0
        { positions := [], daily_pnl := 0, last_reset := 0 })).1.daily_pnl
      = 100 ∧
    dictLookup "AAA" (close_position "AAA" 110
      (add_position "AAA" 100 10 0
        { positions := [], daily_pnl := 0, last_reset := 0 })).1.positions
      = none := by
  refine ⟨?_, ?_, ?_, ?_, ?_⟩
  · intro pos hpos
    refine ⟨?_, ?_, ?_, ?_⟩
    · simp [close_position, hpos]
    · simp [close_position, hpos]
    · simp [close_position, hpos, dictLookup_dictRemove_self]
    · intro other hother
      simp [close_position, hpos,
        dictLookup_dictRemove_other sym other pm.positions hother]
  · intro hnone
    simp [close_position, hnone]
  · norm_num [close_position, add_position, dictInsert, dictLookup]
  · norm_num [close_position, add_position, dictInsert, dictLookup]
  · norm_num [close_position, add_position, dictInsert, dictLookup,
      dictRemove]

/-- C6 witness: the held and unheld branches applied at concrete states:
closing AAA held at entry 100 x 10 for 110 realizes 100; closing an
unheld symbol returns the state unchanged with 0. -/
theorem close_position_spec_witness :
    (close_position "AAA" 110
      { positions := [("AAA",
          { entry_price := 100, quantity := 10, entry_time := 0 })],
        daily_pnl := 0, last_reset := 0 }).2 = 100 ∧
    close_position "BBB" 110
      { positions := [], daily_pnl := 0, last_reset := 0 } =
      ({ positions := [], daily_pnl := 0, last_reset := 0 }, 0) := by
  constructor
  · have h := ((close_position_spec
      { positions := [("AAA",
          { entry_price := 100, quantity := 10, entry_time := 0 })],
        daily_pnl := 0, last_reset := 0 } "AAA" 110).1
      { entry_price := 100, quantity := 10, entry_time := 0 }
      (by simp [dictLookup])).1
    rw [h]; norm_num
  · exact (close_position_spec
      { positions := [], daily_pnl := 0, last_reset := 0 } "BBB" 110).2.1
      (by simp [dictLookup])

end TradingBot

namespace TradingBot

lemma dictLookup_append {α : Type} (x : String) (m m' : List (String × α)) :
    dictLookup x (m ++ m') =
      match dictLookup x m with
      | some v => some v
      | none => dictLookup x m' := by
  induction m with
  | nil => rfl
  | cons p rest ih =>
    by_cases hp : p.1 == x <;> simp [dictLookup, hp, ih]

lemma dictLookup_map_replace {α : Type} (k other : String) (v : α)
    (h : other ≠ k) (m : List (String × α)) :
    dictLookup other
      (m.map (fun p => if p.1 == k then (k, v) else p)) =
      dictLookup other m := by
  induction m with
  | nil => rfl
  | cons p rest ih =>
    rw [List.map_cons]
    by_cases hp : p.1 == k
    · have hko : ¬ (k == other) = true := by
        simp [beq_eq_false_iff_ne]
        exact fun hh => h hh.symm
      have hpo : ¬ (p.1 == other) = true := by
        simp [beq_eq_false_iff_ne, eq_of_beq hp]
        exact fun hh => h hh.symm
      rw [if_pos hp, dictLookup, dictLookup, if_neg hko, if_neg hpo, ih]
    · rw [if_neg hp, dictLookup, dictLookup]
      by_cases hq : p.1 == other
      · rw [if_pos hq, if_pos hq]
      · rw [if_neg hq, if_neg hq, ih]

lemma dictLookup_dictInsert_self {α : Type} (k : String) (v : α)
    (m : List (String × α)) :
    dictLookup k (dictInsert k v m) = some v := by
  induction m with
  | nil => simp [dictInsert, dictLookup]
  | cons p rest ih =>
    by_cases hp : p.1 == k
    · have hany : ((p :: rest).any fun q => q.1 == k) = true := by
        rw [List.any_cons, Bool.or_eq_true]
        exact Or.inl hp
      simp only [dictInsert]
      rw [if_pos hany, List.map_cons, if_pos hp, dictLookup,
        if_pos (beq_self_eq_true k)]
    · by_cases hany : (rest.any fun q => q.1 == k) = true
      · have hany' : ((p :: rest).any fun q => q.1 == k) = true := by
          rw [List.any_cons, Bool.or_eq_true]
          exact Or.inr hany
        simp only [dictInsert] at ih ⊢
        rw [if_pos hany', List.map_cons, if_neg hp, dictLookup, if_neg hp]
        rw [if_pos hany] at ih
        exact ih
      · have hany' : ¬ ((p :: rest).any fun q => q.1 == k) = true := by
          rw [List.any_cons, Bool.or_eq_true]
          intro hx
          rcases hx with hx | hx
          · exact hp hx
          · exact hany hx
        simp only [dictInsert] at ih ⊢
        rw [if_neg hany', List.cons_append, dictLookup, if_neg hp]
        rw [if_neg hany] at ih
        exact ih

lemma dictLookup_dictInsert_other {α : Type} (k other : String) (v : α)
    (m : List (String × α)) (h : other ≠ k) :
    dictLookup other (dictInsert k v m) = dictLookup other m := by
  have hko : (k == other) = false := by
    rw [beq_eq_false_iff_ne]
    exact fun hh => h hh.symm
  by_cases hany : m.any (fun p => p.1 == k)
  · simp only [dictInsert, hany, if_true]
    exact dictLookup_map_replace k other v h m
  · simp only [dictInsert, hany, if_false, Bool.false_eq_true]
    rw [dictLookup_append]
    cases hm : dictLookup other m <;> simp [dictLookup, hko]

lemma keys_dictInsert_nodup {α : Type} (k : String) (v : α)
    (m : List (String × α)) (h : (m.map Prod.fst).Nodup) :
    ((dictInsert k v m).map Prod.fst).Nodup := by
  by_cases hany : m.any (fun p => p.1 == k)
  · have hkeys :
        (m.map (fun p => if p.1 == k then (k, v) else p)).map Prod.fst =
          m.map Prod.fst := by
      rw [List.map_map]
      apply List.map_congr_left
      intro p _
      by_cases hp : p.1 == k
      · simp [Function.comp, hp, (eq_of_beq hp).symm]
      · simp [Function.comp, hp]
    simp only [dictInsert, hany, if_true]
    rw [hkeys]
    exact h
  · have hnot : k ∉ m.map Prod.fst := by
      intro hk
      rcases List.mem_map.mp hk with ⟨p, hpm, hpk⟩
      have : ¬ (p.1 == k) = true := by
        intro hx
        rw [List.any_eq_true] at hany
        exact hany ⟨p, hpm, hx⟩
      exact this (beq_iff_eq.mpr hpk)
    simp only [dictInsert, hany, if_false, Bool.false_eq_true]
    rw [List.map_append]
    simp [List.nodup_append, h, hnot]

end TradingBot

namespace TradingBot

/-- A ledger already holding an open AAA position (entry 100, qty 10). -/
def pmWithAAA : PositionManager :=
  { positions := [("AAA",
      { entry_price := 100, quantity := 10, entry_time := 0 })],
    daily_pnl := 0, last_reset := 0 }

/-- C5 counterexample: with AAA already open, `add_position` does not
fail — it silently replaces the stored position (entry price 100 becomes
200), refuting "calling open for that same symbol fails — it does not
replace". -/
theorem add_position_existing_counterexample :
    dictLookup "AAA" pmWithAAA.positions =
      some { entry_price := 100, quantity := 10, entry_time := 0 } ∧
    (add_position "AAA" 200 5 1 pmWithAAA).positions =
      [("AAA", { entry_price := 200, quantity := 5, entry_time := 1 })] := by
  constructor
  · rfl
  · norm_num [add_position, dictInsert, pmWithAAA]

/-- C5 amended: `add_position` on a symbol with an existing open position
silently replaces the stored position (the keyed dict keeps a single
entry, so the at-most-one-open-position-per-symbol invariant is
preserved by keying, not by failure); other symbols are untouched. -/
theorem add_position_replace_spec (pm : PositionManager) (sym : String)
    (e : ℚ) (q : ℤ) (now : ℕ) :
    dictLookup sym (add_position sym e q now pm).positions =
      some { entry_price := e, quantity := q, entry_time := now } ∧
    (∀ other, other ≠ sym →
      dictLookup other (add_position sym e q now pm).positions =
        dictLookup other pm.positions) ∧
    ((pm.positions.map Prod.fst).Nodup →
      ((add_position sym e q now pm).positions.map Prod.fst).Nodup) ∧
    (add_position sym e q now pm).daily_pnl = pm.daily_pnl ∧
    (add_position sym e q now pm).last_reset = pm.last_reset := by
  refine ⟨?_, ?_, ?_, rfl, rfl⟩
  · exact dictLookup_dictInsert_self sym _ pm.positions
  · intro other hother
    exact dictLookup_dictInsert_other sym other _ pm.positions hother
  · intro h
    exact keys_dictInsert_nodup sym _ pm.positions h

/-- C5 amended witness: replacing AAA in a concrete one-entry ledger
keeps a single AAA entry holding the new data, and key uniqueness is
preserved. -/
theorem add_position_replace_spec_witness :
    dictLookup "AAA" (add_position "AAA" 200 5 1 pmWithAAA).positions =
      some { entry_price := 200, quantity := 5, entry_time := 1 } ∧
    dictLookup "BBB" (add_position "AAA" 200 5 1 pmWithAAA).positions =
      dictLookup "BBB" pmWithAAA.positions ∧
    ((add_position "AAA" 200 5 1 pmWithAAA).positions.map Prod.fst).Nodup :=
  ⟨(add_position_replace_spec pmWithAAA "AAA" 200 5 1).1,
   (add_position_replace_spec pmWithAAA "AAA" 200 5 1).2.1 "BBB"
     (by decide),
   (add_position_replace_spec pmWithAAA "AAA" 200 5 1).2.2.1
     (by simp [pmWithAAA])⟩

end TradingBot

namespace TradingBot

/-- A ledger on day 5 whose daily loss has tripped the breaker
(portfolio 100000, limit 1000, daily_pnl -1001), still holding AAA. -/
def pmTripped : PositionManager :=
  { positions := [("AAA",
      { entry_price := 100, quantity := 10, entry_time := 0 })],
    daily_pnl := -1001, last_reset := 5 }

/-- C9 counterexample: the breaker is not latched.  On day 5 with
daily_pnl = -1001 `can_trade` is false, but a profitable same-day close
(AAA at 150, realizing +500) lifts daily_pnl to -501 and the very next
`can_trade` call on the same day returns true — refuting "once tripped,
no new trades until the next calendar day regardless of intraday
recovery". -/
theorem can_trade_latch_counterexample :
    (can_trade 5 100000 pmTripped).2 = false ∧
    (close_position "AAA" 150 pmTripped).1.daily_pnl = -501 ∧
    (close_position "AAA" 150 pmTripped).1.last_reset = 5 ∧
    (can_trade 5 100000 (close_position "AAA" 150 pmTripped).1).2 = true := by
  refine ⟨?_, ?_, rfl, ?_⟩ <;>
    norm_num [can_trade, reset_daily_metrics, close_position, dictLookup,
      pmTripped, MAX_DAILY_LOSS_PERCENT]

/-- C9 amended: `can_trade` recomputes its verdict from the current
`daily_pnl` on every call (there is no latch): on a given day it is
false iff `daily_pnl` is at or below the loss threshold, and after a
same-day profitable close that lifts the running daily P&L back above
the threshold it returns true again; only the state of `daily_pnl`
(or the next day's reset) governs the verdict. -/
theorem can_trade_no_latch (today : ℕ) (pv : ℚ) (pm : PositionManager)
    (sym : String) (price : ℚ) (pos : Position)
    (hd : pm.last_reset = today)
    (hpos : dictLookup sym pm.positions = some pos) :
    ((can_trade today pv pm).2 = false ↔
      pm.daily_pnl ≤ -(pv * (MAX_DAILY_LOSS_PERCENT / 100))) ∧
    ((can_trade today pv (close_position sym price pm).1).2 = true ↔
      pm.daily_pnl + (price - pos.entry_price) * (pos.quantity : ℚ) >
        -(pv * (MAX_DAILY_LOSS_PERCENT / 100))) := by
  have hreset : ∀ (ps : List (String × Position)) (q : ℚ),
      reset_daily_metrics today
        { positions := ps, daily_pnl := q, last_reset := pm.last_reset } =
        { positions := ps, daily_pnl := q, last_reset := pm.last_reset } := by
    intro ps q
    simp [reset_daily_metrics, hd]
  constructor
  · have h1 : reset_daily_metrics today pm = pm := by
      simp [reset_daily_metrics, hd]
    simp [can_trade, h1, not_lt]
  · simp [can_trade, close_position, hpos, hreset]

/-- C9 amended witness: at the concrete tripped ledger, `can_trade` is
false at -1001 and becomes true after the +500 recovery close on the
same day. -/
theorem can_trade_no_latch_witness :
    (can_trade 5 100000 pmTripped).2 = false ∧
    (can_trade 5 100000 (close_position "AAA" 150 pmTripped).1).2 = true :=
  ⟨((can_trade_no_latch 5 100000 pmTripped "AAA" 150
      { entry_price := 100, quantity := 10, entry_time := 0 }
      rfl rfl).1).mpr (by norm_num [pmTripped, MAX_DAILY_LOSS_PERCENT]),
   ((can_trade_no_latch 5 100000 pmTripped "AAA" 150
      { entry_price := 100, quantity := 10, entry_time := 0 }
      rfl rfl).2).mpr (by norm_num [pmTripped, MAX_DAILY_LOSS_PERCENT])⟩

end TradingBot

namespace TradingBot

/-- The marking applied to one positions entry when its symbol is priced. -/
def markEntry (prices : List (String × ℚ)) (p : String × Position) :
    String × Position :=
  match dictLookup p.1 prices with
  | some cp => (p.1, { p.2 with
      current_price := some cp,
      unrealized_pnl := some ((cp - p.2.entry_price) * (p.2.quantity : ℚ)) })
  | none => p

/-- The contribution of one positions entry to the returned total. -/
def markPnl (prices : List (String × ℚ)) (p : String × Position) : ℚ :=
  match dictLookup p.1 prices with
  | some cp => (cp - p.2.entry_price) * (p.2.quantity : ℚ)
  | none => 0

lemma update_position_values_foldl (prices : List (String × ℚ))
    (xs : List (String × Position)) (acc1 : List (String × Position))
    (acc2 : ℚ) :
    xs.foldl
      (fun acc entry =>
        match dictLookup entry.1 prices with
        | some current_price =>
            let upnl := (current_price - entry.2.entry_price) *
              (entry.2.quantity : ℚ)
            (acc.1 ++ [(entry.1,
              { entry.2 with
                  current_price := some current_price,
                  unrealized_pnl := some upnl })], acc.2 + upnl)
        | none => (acc.1 ++ [entry], acc.2))
      (acc1, acc2) =
      (acc1 ++ xs.map (markEntry prices),
       acc2 + (xs.map (markPnl prices)).sum) := by
  induction xs generalizing acc1 acc2 with
  | nil => simp
  | cons x rest ih =>
    rw [List.foldl_cons]
    cases h : dictLookup x.1 prices with
    | some cp =>
      simp only [h]
      rw [ih]
      simp [markEntry, markPnl, h, List.append_assoc, add_assoc]
    | none =>
      simp only [h]
      rw [ih]
      simp [markEntry, markPnl, h, List.append_assoc]

/-- Sum of the `unrealized_pnl` marks over all open positions (absent
marks counted as 0). -/
def total_unrealized (pm : PositionManager) : ℚ :=
  (pm.positions.map (fun p => p.2.unrealized_pnl.getD 0)).sum

/-- A ledger holding A and B, both entered at 100 x 1, unmarked. -/
def pmTwo : PositionManager :=
  { positions :=
      [("A", { entry_price := 100, quantity := 1, entry_time := 0 }),
       ("B", { entry_price := 100, quantity := 1, entry_time := 0 })],
    daily_pnl := 0, last_reset := 0 }

/-- C8 counterexample: after marking A at 150 (unrealized 50), a second
`update_position_values` call whose price map contains only B (at 110)
returns 10 — the sum over the priced symbols only — while the aggregate
unrealized P&L across all open positions is 60, refuting "returns the
aggregate unrealized P&L across all open positions". -/
theorem update_position_values_aggregate_counterexample :
    (update_position_values [("B", 110)]
      (update_position_values [("A", 150)] pmTwo).1).2 = 10 ∧
    total_unrealized
      (update_position_values [("B", 110)]
        (update_position_values [("A", 150)] pmTwo).1).1 = 60 ∧
    (10 : ℚ) ≠ 60 := by
  refine ⟨?_, ?_, by norm_num⟩ <;>
    · simp [update_position_values, dictLookup, pmTwo, total_unrealized]
      norm_num

/-- C8 amended: `update_position_values` marks `current_price` and
`unrealized_pnl = (current_price - entry_price) * quantity` on every
held symbol present in the price map, leaves positions whose symbol is
absent from the price map unchanged (no error), does not touch
`daily_pnl` or `last_reset`, and returns the sum of the newly computed
unrealized P&Ls over the positions present in the price map (positions
absent from the map contribute nothing to the returned total). -/
theorem update_position_values_spec (prices : List (String × ℚ))
    (pm : PositionManager) :
    (update_position_values prices pm).1.positions =
      pm.positions.map (markEntry prices) ∧
    (update_position_values prices pm).2 =
      (pm.positions.map (markPnl prices)).sum ∧
    (∀ p, p ∈ pm.positions → dictLookup p.1 prices = none →
      markEntry prices p = p) ∧
    (∀ p cp, p ∈ pm.positions → dictLookup p.1 prices = some cp →
      markEntry prices p = (p.1, { p.2 with
        current_price := some cp,
        unrealized_pnl :=
          some ((cp - p.2.entry_price) * (p.2.quantity : ℚ)) }) ∧
      markPnl prices p = (cp - p.2.entry_price) * (p.2.quantity : ℚ)) ∧
    (update_position_values prices pm).1.daily_pnl = pm.daily_pnl ∧
    (update_position_values prices pm).1.last_reset = pm.last_reset := by
  refine ⟨?_, ?_, ?_, ?_, ?_, ?_⟩
  · simp [update_position_values, update_position_values_foldl]
  · simp [update_position_values, update_position_values_foldl]
  · intro p _ hnone
    simp [markEntry, hnone]
  · intro p cp _ hsome
    exact ⟨by simp [markEntry, hsome], by simp [markPnl, hsome]⟩
  · simp [update_position_values]
  · simp [update_position_values]

/-- C8 amended witness: on the concrete two-position ledger with only B
priced, B is marked, A is untouched, and the returned total is B's
fresh unrealized P&L. -/
theorem update_position_values_spec_witness :
    markEntry [("B", (110 : ℚ))]
      ("A", { entry_price := 100, quantity := 1, entry_time := 0 }) =
      ("A", { entry_price := 100, quantity := 1, entry_time := 0 }) ∧
    markPnl [("B", (110 : ℚ))]
      ("B", { entry_price := 100, quantity := 1, entry_time := 0 }) = 10 :=
  ⟨(update_position_values_spec [("B", 110)] pmTwo).2.2.1
      ("A", { entry_price := 100, quantity := 1, entry_time := 0 })
      (by simp [pmTwo]) (by simp [dictLookup]),
   by
    have h := ((update_position_values_spec [("B", 110)] pmTwo).2.2.2.1
      ("B", { entry_price := 100, quantity := 1, entry_time := 0 }) 110
      (by simp [pmTwo]) (by simp [dictLookup])).2
    rw [h]; norm_num⟩

end TradingBot

namespace TradingBot

/-! ## Risk gate (src/trading/trader.py, Trader._check_risk_limits)

The Python returns a bare bool after logging one of three distinct
warnings; the three rejection reasons are modelled as an inductive so
the theorem can speak about which check failed.  `get_total_exposure`
is the spec-modelled ledger operation above. -/

/-- The verdict of `Trader._check_risk_limits`, with the three distinct
rejection log messages of the source as constructors. -/
inductive RiskCheckResult where
  | approved
  | perTradeLimit
  | dailyLossLimit
  | exposureLimit
deriving Repr, DecidableEq

/-- Embedding of `Trader._check_risk_limits`
(src/trading/trader.py lines 108-133): rejects when the trade value
exceeds `portfolio_value * risk_per_trade`, else consults
`can_trade`, else rejects when `get_total_exposure() + trade_value`
exceeds `portfolio_value * MAX_POSITION_SIZE_PERCENT / 100`.  The
state is threaded because `can_trade` may perform the daily rollover
reset. -/
def check_risk_limits (today : ℕ) (portfolio_value trade_value : ℚ)
    (pm : PositionManager) : PositionManager × RiskCheckResult :=
  let max_trade_value := portfolio_value * risk_per_trade
  if trade_value > max_trade_value then (pm, .perTradeLimit)
  else
    let ct := can_trade today portfolio_value pm
    if ct.2 then
      let current_exposure := get_total_exposure ct.1
      let max_exposure := portfolio_value * MAX_POSITION_SIZE_PERCENT / 100
      if current_exposure + trade_value > max_exposure then
        (ct.1, .exposureLimit)
      else (ct.1, .approved)
    else (ct.1, .dailyLossLimit)

lemma get_total_exposure_reset (today : ℕ) (pm : PositionManager) :
    get_total_exposure (reset_daily_metrics today pm) =
      get_total_exposure pm := by
  unfold reset_daily_metrics get_total_exposure
  split_ifs <;> rfl

/-- C4: the risk gate approves iff all three limits hold (per-trade
value, daily loss circuit breaker, aggregate exposure); each failing
check yields its own rejection reason; positions are never mutated, and
when no date rollover is pending the whole ledger state is returned
unchanged. -/
theorem check_risk_limits_spec (today : ℕ) (pv tv : ℚ)
    (pm : PositionManager) :
    ((check_risk_limits today pv tv pm).2 = RiskCheckResult.approved ↔
      (tv ≤ pv * risk_per_trade ∧
       (can_trade today pv pm).2 = true ∧
       get_total_exposure pm + tv ≤ pv * MAX_POSITION_SIZE_PERCENT / 100)) ∧
    (check_risk_limits today pv tv pm).1.positions = pm.positions ∧
    (today ≤ pm.last_reset → (check_risk_limits today pv tv pm).1 = pm) ∧
    (tv > pv * risk_per_trade →
      (check_risk_limits today pv tv pm).2 = RiskCheckResult.perTradeLimit) ∧
    (tv ≤ pv * risk_per_trade → (can_trade today pv pm).2 = false →
      (check_risk_limits today pv tv pm).2 = RiskCheckResult.dailyLossLimit) ∧
    (tv ≤ pv * risk_per_trade → (can_trade today pv pm).2 = true →
      get_total_exposure pm + tv > pv * MAX_POSITION_SIZE_PERCENT / 100 →
      (check_risk_limits today pv tv pm).2 = RiskCheckResult.exposureLimit) := by
  have hexpo : get_total_exposure (can_trade today pv pm).1 =
      get_total_exposure pm := by
    simp [can_trade, get_total_exposure_reset]
  refine ⟨?_, ?_, ?_, ?_, ?_, ?_⟩
  · simp only [check_risk_limits]
    split_ifs with h1 h2 h3
    · constructor
      · intro hx; exact absurd hx (by decide)
      · rintro ⟨hx, -, -⟩; linarith
    · constructor
      · intro hx; exact absurd hx (by decide)
      · rintro ⟨-, -, hx⟩
        rw [hexpo] at h3
        linarith
    · constructor
      · intro _
        exact ⟨le_of_not_lt h1, h2, by rw [hexpo] at h3; exact le_of_not_lt h3⟩
      · intro _; rfl
    · constructor
      · intro hx; exact absurd hx (by decide)
      · rintro ⟨-, hx, -⟩
        exact h2 hx
  · simp only [check_risk_limits]
    split_ifs <;> simp [can_trade, reset_daily_metrics] <;>
      split_ifs <;> rfl
  · intro hle
    have hno : reset_daily_metrics today pm = pm := by
      unfold reset_daily_metrics
      rw [if_neg (by omega)]
    simp only [check_risk_limits]
    split_ifs <;> simp [can_trade, hno]
  · intro h
    simp only [check_risk_limits]
    rw [if_pos h]
  · intro h1 h2
    simp only [check_risk_limits]
    rw [if_neg (by linarith)]
    simp [h2]
  · intro h1 h2 h3
    simp only [check_risk_limits]
    rw [if_neg (by linarith), if_pos h2,
      if_pos (show get_total_exposure (can_trade today pv pm).1 + tv >
        pv * MAX_POSITION_SIZE_PERCENT / 100 from by rw [hexpo]; linarith)]

/-- A ledger whose open position already uses the full exposure budget
(entry 1000 x 5 = 5000 = 5 percent of 100000). -/
def pmBigExposure : PositionManager :=
  { positions := [("AAA",
      { entry_price := 1000, quantity := 5, entry_time := 0 })],
    daily_pnl := 0, last_reset := 0 }

/-- C4 witness: concrete instances of approval (all three limits hold)
and of each rejection reason. -/
theorem check_risk_limits_spec_witness :
    (check_risk_limits 0 100000 1500
      { positions := [], daily_pnl := 0, last_reset := 0 }).2 =
      RiskCheckResult.approved ∧
    (check_risk_limits 0 100000 2500
      { positions := [], daily_pnl := 0, last_reset := 0 }).2 =
      RiskCheckResult.perTradeLimit ∧
    (check_risk_limits 0 100000 1500
      { positions := [], daily_pnl := -1001, last_reset := 0 }).2 =
      RiskCheckResult.dailyLossLimit ∧
    (check_risk_limits 0 100000 1500 pmBigExposure).2 =
      RiskCheckResult.exposureLimit := by
  refine ⟨?_, ?_, ?_, ?_⟩
  · apply ((check_risk_limits_spec 0 100000 1500
      { positions := [], daily_pnl := 0, last_reset := 0 }).1).mpr
    refine ⟨by norm_num [risk_per_trade], ?_, ?_⟩
    · norm_num [can_trade, reset_daily_metrics, MAX_DAILY_LOSS_PERCENT]
    · norm_num [get_total_exposure, MAX_POSITION_SIZE_PERCENT]
  · exact (check_risk_limits_spec 0 100000 2500
      { positions := [], daily_pnl := 0, last_reset := 0 }).2.2.2.1
      (by norm_num [risk_per_trade])
  · exact (check_risk_limits_spec 0 100000 1500
      { positions := [], daily_pnl := -1001, last_reset := 0 }).2.2.2.2.1
      (by norm_num [risk_per_trade])
      (by norm_num [can_trade, reset_daily_metrics, MAX_DAILY_LOSS_PERCENT])
  · exact (check_risk_limits_spec 0 100000 1500 pmBigExposure).2.2.2.2.2
      (by norm_num [risk_per_trade])
      (by norm_num [can_trade, reset_daily_metrics, MAX_DAILY_LOSS_PERCENT,
        pmBigExposure])
      (by norm_num [get_total_exposure, MAX_POSITION_SIZE_PERCENT,
        pmBigExposure])

end TradingBot

namespace TradingBot

/-! ## Stop/target watcher (src/trading/trader.py, update_trailing_stops)

For each open position the watcher fetches the current price and, when
the price has advanced above the entry, proposes
`price * (1 - trailing_sl_percent)` as the new stop, storing it via the
ledger's `update_stop_loss` (spec-modelled above) only when it exceeds
the existing stop. -/

/-- Embedding of the trailing-stop update of `Trader.update_trailing_stops`
(src/trading/trader.py lines 139-147) for one position: the value the
position's stop holds after one watcher iteration at `current_price`. -/
def update_trailing_stop_step (entry_price stop_loss current_price : ℚ) :
    ℚ :=
  if current_price > entry_price then
    let new_stop := current_price * (1 - trailing_sl_percent)
    if new_stop > stop_loss then new_stop else stop_loss
  else stop_loss

/-- The stop after successive watcher iterations over a price sequence. -/
def trail_stops (entry_price stop0 : ℚ) (prices : List ℚ) : ℚ :=
  prices.foldl
    (fun stop price => update_trailing_stop_step entry_price stop price)
    stop0

lemma update_trailing_stop_step_mono (entry stop price : ℚ) :
    stop ≤ update_trailing_stop_step entry stop price := by
  simp only [update_trailing_stop_step]
  split_ifs with h1 h2
  · exact le_of_lt h2
  · exact le_refl stop
  · exact le_refl stop

/-- C7: the trailing stop of a held long position never decreases: one
watcher iteration raises the stop to `price * (1 - trailingPercent)`
exactly when the price is above entry and that candidate improves on the
existing stop, and otherwise leaves it unchanged; over any sequence of
iterations the stop is monotone.  Scenario: entry 100, trailing 2 percent,
price 120 raises the stop to 117.6, and a subsequent dip to 118 leaves
it at 117.6. -/
theorem trailing_stop_never_decreases (entry stop price : ℚ)
    (prices : List ℚ) :
    stop ≤ update_trailing_stop_step entry stop price ∧
    (price > entry → price * (1 - trailing_sl_percent) > stop →
      update_trailing_stop_step entry stop price =
        price * (1 - trailing_sl_percent)) ∧
    (¬ (price > entry ∧ price * (1 - trailing_sl_percent) > stop) →
      update_trailing_stop_step entry stop price = stop) ∧
    stop ≤ trail_stops entry stop prices ∧
    update_trailing_stop_step 100 98 120 = 588 / 5 ∧
    update_trailing_stop_step 100 (588 / 5) 118 = 588 / 5 := by
  refine ⟨update_trailing_stop_step_mono entry stop price, ?_, ?_, ?_, ?_, ?_⟩
  · intro h1 h2
    simp only [update_trailing_stop_step]
    rw [if_pos h1]
    exact if_pos h2
  · intro hnot
    simp only [update_trailing_stop_step]
    split_ifs with h1 h2
    · exact absurd ⟨h1, h2⟩ hnot
    · rfl
    · rfl
  · induction prices generalizing stop with
    | nil => exact le_refl stop
    | cons p ps ih =>
      calc stop ≤ update_trailing_stop_step entry stop p :=
            update_trailing_stop_step_mono entry stop p
        _ ≤ trail_stops entry (update_trailing_stop_step entry stop p) ps :=
            ih _
        _ = trail_stops entry stop (p :: ps) := rfl
  · norm_num [update_trailing_stop_step, trailing_sl_percent]
  · norm_num [update_trailing_stop_step, trailing_sl_percent]

/-- C7 witness: the raise branch fires at entry 100, stop 98, price 120
(117.6 improves on 98) and the keep branch fires on the dip to 118. -/
theorem trailing_stop_never_decreases_witness :
    update_trailing_stop_step 100 98 120 =
      120 * (1 - trailing_sl_percent) ∧
    update_trailing_stop_step 100 (588 / 5) 118 = 588 / 5 :=
  ⟨(trailing_stop_never_decreases 100 98 120 []).2.1
      (by norm_num) (by norm_num [trailing_sl_percent]),
   (trailing_stop_never_decreases 100 (588 / 5) 118 []).2.2.1
      (by
        rintro ⟨-, h⟩
        norm_num [trailing_sl_percent] at h)⟩

end TradingBot

namespace TradingBot

/-! ## Supertrend (src/analysis/technical_analyzer.py, calculate_supertrend)

`calculate_supertrend(data, period=7, multiplier=3)` derives its bands
from the bar midpoints and the talib ATR series; the ATR kernel is an
external indicator and enters the model as a series parameter (the
period 7 lives inside that ATR call).  Bar series are ℕ → ℚ; the pandas
float Series initialized to NaN is `Option ℚ`, and index 0 — which the
loop `for i in range(1, len(data))` never assigns — is `none`. -/

/-- `basic_upperband = hl2 + multiplier * atr` (line 38). -/
def basic_upperband (high low atr : ℕ → ℚ) (multiplier : ℚ) (i : ℕ) : ℚ :=
  (high i + low i) / 2 + multiplier * atr i

/-- `basic_lowerband = hl2 - multiplier * atr` (line 39). -/
def basic_lowerband (high low atr : ℕ → ℚ) (multiplier : ℚ) (i : ℕ) : ℚ :=
  (high i + low i) / 2 - multiplier * atr i

/-- The supertrend line produced by the loop of `calculate_supertrend`
(lines 44-53): breach of the prior upper band snaps to the current lower
band, breach of the prior lower band snaps to the current upper band,
otherwise the previous value carries forward. -/
def supertrend_line (close bu bl : ℕ → ℚ) : ℕ → Option ℚ
  | 0 => none
  | i + 1 =>
    if close (i + 1) > bu i then some (bl (i + 1))
    else if close (i + 1) < bl i then some (bu (i + 1))
    else supertrend_line close bu bl i

/-- The direction series maintained alongside the line (lines 46-53). -/
def supertrend_direction (close bu bl : ℕ → ℚ) : ℕ → Option ℤ
  | 0 => none
  | i + 1 =>
    if close (i + 1) > bu i then some 1
    else if close (i + 1) < bl i then some (-1)
    else supertrend_direction close bu bl i

/-- `TechnicalAnalyzer.calculate_supertrend` at its default multiplier 3,
returning the line series. -/
def calculate_supertrend (high low close atr : ℕ → ℚ) : ℕ → Option ℚ :=
  supertrend_line close (basic_upperband high low atr 3)
    (basic_lowerband high low atr 3)

/-- C2: the Supertrend recurrence for every i ≥ 1: a strict breach of
the prior upper band snaps the line to the current lower band, a strict
breach of the prior lower band snaps it to the current upper band, and
otherwise — in particular whenever close lies between the prior bands,
band values included — both the line and the direction carry forward
unchanged; line 0 is undefined (none). -/
theorem calculate_supertrend_recurrence (high low close atr : ℕ → ℚ)
    (i : ℕ) :
    (calculate_supertrend high low close atr (i + 1) =
      if close (i + 1) > basic_upperband high low atr 3 i
      then some (basic_lowerband high low atr 3 (i + 1))
      else if close (i + 1) < basic_lowerband high low atr 3 i
      then some (basic_upperband high low atr 3 (i + 1))
      else calculate_supertrend high low close atr i) ∧
    (basic_lowerband high low atr 3 i ≤ close (i + 1) →
     close (i + 1) ≤ basic_upperband high low atr 3 i →
      calculate_supertrend high low close atr (i + 1) =
        calculate_supertrend high low close atr i ∧
      supertrend_direction close (basic_upperband high low atr 3)
          (basic_lowerband high low atr 3) (i + 1) =
        supertrend_direction close (basic_upperband high low atr 3)
          (basic_lowerband high low atr 3) i) ∧
    calculate_supertrend high low close atr 0 = none := by
  refine ⟨rfl, ?_, rfl⟩
  intro h1 h2
  constructor
  · show supertrend_line close (basic_upperband high low atr 3)
      (basic_lowerband high low atr 3) (i + 1) = _
    rw [supertrend_line, if_neg (not_lt.mpr h2), if_neg (not_lt.mpr h1)]
    rfl
  · rw [supertrend_direction, if_neg (not_lt.mpr h2),
      if_neg (not_lt.mpr h1)]

/-- C2 witness: constant bars with midpoint 5 and ATR 1 give prior bands
2 and 8; a close of 5 sits between them, so line and direction carry
forward from the undefined index 0. -/
theorem calculate_supertrend_recurrence_witness :
    basic_lowerband (fun _ => 10) (fun _ => 0) (fun _ => 1) 3 0 ≤ 5 ∧
    (5 : ℚ) ≤ basic_upperband (fun _ => 10) (fun _ => 0) (fun _ => 1) 3 0 ∧
    calculate_supertrend (fun _ => 10) (fun _ => 0) (fun _ => 5)
      (fun _ => 1) 1 =
      calculate_supertrend (fun _ => 10) (fun _ => 0) (fun _ => 5)
        (fun _ => 1) 0 :=
  ⟨by norm_num [basic_lowerband], by norm_num [basic_upperband],
   ((calculate_supertrend_recurrence (fun _ => 10) (fun _ => 0)
      (fun _ => 5) (fun _ => 1) 0).2.1
      (by norm_num [basic_lowerband]) (by norm_num [basic_upperband])).1⟩

end TradingBot
